import Mathlib

/-!
Shallow embedding of the places-search route (src/app/api/search-places/route.ts).

The route is thin orchestration over an external HTTP API: geocode a location,
page through a nearby search (at most 3 pages), enrich every record with a
detail lookup, and export the aggregate as spreadsheet rows.  The external
world is modelled by an `Env` of response oracles; every outbound HTTP request
is additionally recorded in an ordered trace of `NetCall`s so that properties
about the number and order of network calls can be stated.  JavaScript
truthiness on optional strings (undefined or the empty string are falsy) is
modelled by `jsTruthyStr`, and the `a || b` defaulting idiom on optional
strings by `jsOrStr`.  Fallible calls return `Except String` carrying the
thrown error message.
-/

namespace Buscador

/-- A latitude/longitude pair, as extracted from the geocoder response
(`geometry.location`).  The numeric values are only passed through to the
nearby-search request, never computed with. -/
structure Coord where
  lat : Int
  lng : Int
deriving DecidableEq

/-- One candidate in the geocoder response (`results[i]`), of which the code
only reads `geometry.location`. -/
structure GeoCandidate where
  location : Coord
deriving DecidableEq

/-- The geocoder response body: a status string and a list of candidates. -/
structure GeocodeResponse where
  status : String
  results : List GeoCandidate
deriving DecidableEq

/-- One element of `PlacesSearchResponse.results` in the source: the
lightweight record returned by the nearby search, before detail enrichment. -/
structure SearchRecord where
  place_id : String
  name : String
  vicinity : String
  rating : Option Rat
  user_ratings_total : Option Nat
  types : List String
deriving DecidableEq

/-- Structure `PlacesSearchResponse` from the source: one page of nearby-search
results, an optional token for the next page, and a status string. -/
structure PlacesSearchResponse where
  results : List SearchRecord
  next_page_token : Option String
  status : String
deriving DecidableEq

/-- The `result` object of `PlaceDetailsResponse`: the three detail fields the
route requests.  Each is optional at runtime (`Option`), and the code defends
against absent values with `||` defaulting. -/
structure PlaceDetailsResult where
  website : Option String
  formatted_phone_number : Option String
  formatted_address : Option String
deriving DecidableEq

/-- Structure `PlaceDetailsResponse` from the source.  The code never inspects
`status`; it only reads the `result` fields. -/
structure PlaceDetailsResponse where
  result : PlaceDetailsResult
  status : String
deriving DecidableEq

/-- Structure `PlaceSearchResult` from the source, as produced by the aggregation loop:
a search record merged with its detail fields.  After enrichment the three
detail fields are always set (possibly to the empty string), so they are plain
`String`s here. -/
structure PlaceSearchResult where
  place_id : String
  name : String
  vicinity : String
  rating : Option Rat
  user_ratings_total : Option Nat
  types : List String
  website : String
  formatted_phone_number : String
  formatted_address : String
deriving DecidableEq

/-- One outbound HTTP request issued by the route.  `nearbySearch` is the
coordinate+keyword mode of the nearby search; `nearbyToken` is the
pagination-token mode, whose URL carries only the token. -/
inductive NetCall where
  | geocode : String → NetCall
  | nearbySearch : Coord → String → NetCall
  | nearbyToken : String → NetCall
  | placeDetails : String → NetCall
deriving DecidableEq

/-- The external world: one response oracle per outbound endpoint.  An
`Except.error` models the HTTP client throwing (network failure or error
status), carrying the error message. -/
structure Env where
  geocode : String → Except String GeocodeResponse
  nearbySearch : Coord → String → Except String PlacesSearchResponse
  nearbyToken : String → Except String PlacesSearchResponse
  details : String → Except String PlaceDetailsResponse

/-- JavaScript truthiness of an optional string: `undefined` and `""` are
falsy, every other string is truthy. -/
def jsTruthyStr : Option String → Bool
  | none => false
  | some s => s ≠ ""

/-- The JavaScript idiom `a || b` for an optional string `a` with string
default `b`: the default is used when `a` is `undefined` or empty. -/
def jsOrStr : Option String → String → String
  | none, d => d
  | some s, d => if s = "" then d else s

/-- The message thrown by `searchPlaces` when geocoding yields a non-OK
status or no candidate. -/
def locationNotFoundMsg : String := "Não foi possível encontrar a localização especificada"

/-- Function `getPlaceDetails` from the source: one details request for a place id,
returning the response (or the thrown error) together with the recorded
outbound call. -/
def getPlaceDetails (env : Env) (placeId : String) :
    Except String PlaceDetailsResponse × List NetCall :=
  (env.details placeId, [NetCall.placeDetails placeId])

/-- Function `searchPlaces` from the source.  It always geocodes the location first;
a non-OK geocode status or an empty candidate list throws
`locationNotFoundMsg`.  It then requests one page of the nearby search: with
the pagination token when a truthy token is supplied (that URL carries only
the token), otherwise with the first candidate's coordinates and the keyword. -/
def searchPlaces (env : Env) (serviceType location : String)
    (pageToken : Option String) :
    Except String PlacesSearchResponse × List NetCall :=
  match env.geocode location with
  | Except.error e => (Except.error e, [NetCall.geocode location])
  | Except.ok g =>
    if g.status ≠ "OK" then
      (Except.error locationNotFoundMsg, [NetCall.geocode location])
    else
      match g.results with
      | [] => (Except.error locationNotFoundMsg, [NetCall.geocode location])
      | c :: _ =>
        if jsTruthyStr pageToken then
          match pageToken with
          | some t =>
            (env.nearbyToken t, [NetCall.geocode location, NetCall.nearbyToken t])
          | none =>
            (env.nearbySearch c.location serviceType,
             [NetCall.geocode location, NetCall.nearbySearch c.location serviceType])
        else
          (env.nearbySearch c.location serviceType,
           [NetCall.geocode location, NetCall.nearbySearch c.location serviceType])

/-- The body of the `response.results.map` callback in `getAllPlaces`: merge
one search record with its detail lookup.  On success the detail fields
default to the empty string (address to the record's `vicinity`); if the
lookup throws, the record is kept with empty website/phone and the `vicinity`
address. -/
def enrichPlace (env : Env) (place : SearchRecord) : PlaceSearchResult :=
  match (getPlaceDetails env place.place_id).1 with
  | Except.ok details =>
    { place_id := place.place_id
      name := place.name
      vicinity := place.vicinity
      rating := place.rating
      user_ratings_total := place.user_ratings_total
      types := place.types
      website := jsOrStr details.result.website ""
      formatted_phone_number := jsOrStr details.result.formatted_phone_number ""
      formatted_address := jsOrStr details.result.formatted_address place.vicinity }
  | Except.error _ =>
    { place_id := place.place_id
      name := place.name
      vicinity := place.vicinity
      rating := place.rating
      user_ratings_total := place.user_ratings_total
      types := place.types
      website := ""
      formatted_phone_number := ""
      formatted_address := place.vicinity }

/-- The `Promise.all(response.results.map ...)` fan-out of `getAllPlaces`:
every record of the page is enriched, and the results are reassembled in the
original record order. -/
def detailedResults (env : Env) (records : List SearchRecord) :
    List PlaceSearchResult :=
  records.map (enrichPlace env)

/-- The outbound calls issued by the detail fan-out of one page (one details
request per record; their relative order is one linearization of the
concurrent fan-out). -/
def detailCalls (records : List SearchRecord) : List NetCall :=
  records.map (fun p => NetCall.placeDetails p.place_id)

/-- Constant `maxPages` from the source: the hard page cap of the aggregation loop. -/
def maxPages : Nat := 3

/-- The do/while loop of `getAllPlaces`, with `fuel = maxPages - currentPage`
remaining iterations (the loop body runs, then repeats while the new token is
truthy and `currentPage < maxPages`, i.e. while `fuel - 1 > 0`).  Returns the
accumulated records (or the thrown error) and the ordered trace of outbound
calls. -/
def getAllPlacesAux (env : Env) (serviceType location : String) :
    Option String → Nat → List PlaceSearchResult →
    Except String (List PlaceSearchResult) × List NetCall
  | _, 0, acc => (Except.ok acc, [])
  | tok, fuel + 1, acc =>
    match searchPlaces env serviceType location tok with
    | (Except.error e, calls) => (Except.error e, calls)
    | (Except.ok response, calls) =>
      if response.status ≠ "OK" then
        (Except.error ("Erro na API do Google Places: " ++ response.status), calls)
      else
        if jsTruthyStr response.next_page_token ∧ 0 < fuel then
          match getAllPlacesAux env serviceType location
              response.next_page_token fuel (acc ++ detailedResults env response.results) with
          | (r, calls2) => (r, calls ++ detailCalls response.results ++ calls2)
        else
          (Except.ok (acc ++ detailedResults env response.results),
           calls ++ detailCalls response.results)

/-- Function `getAllPlaces` from the source: start the loop with no token, page 0 and
an empty accumulator. -/
def getAllPlaces (env : Env) (serviceType location : String) :
    Except String (List PlaceSearchResult) × List NetCall :=
  getAllPlacesAux env serviceType location none maxPages []

/-- The two generic category tags filtered out of the business-type column. -/
def genericTags : List String := ["point_of_interest", "establishment"]

/-- The `type.replace(/_/g, " ")` step: every underscore becomes a space. -/
def underscoreToSpace (s : String) : String :=
  String.mk (s.data.map (fun c => if c = '_' then ' ' else c))

/-- The filtered and underscore-rewritten category tags of one place, in
their original order (the list that `generateExcel` joins with a comma). -/
def businessParts (types : List String) : List String :=
  (types.filter (fun t => !(genericTags.contains t))).map underscoreToSpace

/-- The `businessType` string computed per row in `generateExcel`: the
comma-joined `businessParts`. -/
def businessTypeOf (types : List String) : String :=
  String.intercalate ", " (businessParts types)

/-- A spreadsheet cell that is either a string or a number (the rating cell
is the number when present and the string "N/A" otherwise). -/
inductive CellVal where
  | str : String → CellVal
  | num : Rat → CellVal
deriving DecidableEq

/-- One data row added by `generateExcel`, with the route's fixed column
schema. -/
structure Row where
  name : String
  address : String
  rating : CellVal
  ratings_count : Nat
  has_website : String
  website : String
  phone : String
  business_type : String
deriving DecidableEq

/-- The `worksheet.addRow` object built for one place in `generateExcel`.
JavaScript `||` defaulting: a rating of `undefined` (or the falsy `0`)
renders as "N/A"; an absent rating count renders as `0`; empty website/phone
render as "N/A"; an empty business-type string renders as "N/A". -/
def toRow (place : PlaceSearchResult) : Row :=
  { name := place.name
    address := place.formatted_address
    rating :=
      match place.rating with
      | some r => if r = 0 then CellVal.str "N/A" else CellVal.num r
      | none => CellVal.str "N/A"
    ratings_count :=
      match place.user_ratings_total with
      | some n => n
      | none => 0
    has_website := if place.website ≠ "" then "Sim" else "Não"
    website := if place.website = "" then "N/A" else place.website
    phone := if place.formatted_phone_number = "" then "N/A" else place.formatted_phone_number
    business_type :=
      if businessTypeOf place.types = "" then "N/A" else businessTypeOf place.types }

/-- Function `generateExcel` from the source, restricted to its data content: the
ordered list of data rows of the produced worksheet (header styling, column
widths, autofilter and freezing carry no data). -/
def generateExcel (places : List PlaceSearchResult) : List Row :=
  places.map toRow

/-- The parsed request body: `serviceType` and `location` as optional fields
(`undefined` when missing from the JSON object). -/
structure ReqBody where
  serviceType : Option String
  location : Option String
deriving DecidableEq

/-- A route response: a JSON message body with a status code, or the
spreadsheet download (data rows, status, and the X-Results-Count header
value). -/
inductive Response where
  | json : String → Nat → Response
  | excel : List Row → Nat → Nat → Response
deriving DecidableEq

/-- The HTTP status code of a response. -/
def Response.statusCode : Response → Nat
  | Response.json _ s => s
  | Response.excel _ s _ => s

/-- The 500 message for a missing API credential. -/
def misconfiguredMsg : String := "Chave da API do Google Maps não configurada"

/-- The 400 message for a missing or empty input field. -/
def invalidInputMsg : String := "Tipo de serviço e localização são obrigatórios"

/-- The 404 message for an empty aggregated result. -/
def noResultsMsg : String := "Nenhum estabelecimento encontrado para os critérios informados"

/-- The `POST` handler.  `apiKey` is `process.env.GOOGLE_MAPS_API_KEY`
(checked for truthiness first, before the body is even parsed); `body` is the
outcome of `request.json()` (`Except.error` carries the parse error's
message, which the catch-all turns into a 500).  A falsy `serviceType` or
`location` yields the 400; an aggregation error yields a 500 with the thrown
message; zero records yield the 404; otherwise the spreadsheet is returned
with status 200 and the row count header. -/
def POST (env : Env) (apiKey : Option String) (body : Except String ReqBody) :
    Response × List NetCall :=
  if jsTruthyStr apiKey then
    match body with
    | Except.error e => (Response.json e 500, [])
    | Except.ok b =>
      match b.serviceType, b.location with
      | some serviceType, some location =>
        if serviceType = "" ∨ location = "" then
          (Response.json invalidInputMsg 400, [])
        else
          match getAllPlaces env serviceType location with
          | (Except.error e, calls) => (Response.json e 500, calls)
          | (Except.ok places, calls) =>
            if places.length = 0 then
              (Response.json noResultsMsg 404, calls)
            else
              (Response.excel (generateExcel places) 200 places.length, calls)
      | _, _ => (Response.json invalidInputMsg 400, [])
  else
    (Response.json misconfiguredMsg 500, [])

/-- Recognize a geocoding call in a trace. -/
def isGeocode : NetCall → Bool
  | NetCall.geocode _ => true
  | _ => false

/-- Recognize a page-search request (either mode) in a trace. -/
def isNearby : NetCall → Bool
  | NetCall.nearbySearch _ _ => true
  | NetCall.nearbyToken _ => true
  | _ => false

/-!  Mock upstreams used to instantiate the claims on concrete requests. -/

/-- The `i`-th page served by a mocked upstream holding `pages`: a successful
response whose next-page token names the following page ("1" after page 0,
"2" after page 1) whenever one exists.  Asking beyond the last page throws. -/
def pageResp (pages : List (List SearchRecord)) (i : Nat) :
    Except String PlacesSearchResponse :=
  match pages.get? i with
  | some rs =>
    Except.ok
      { results := rs
        next_page_token :=
          if i = 0 then (if 1 < pages.length then some "1" else none)
          else if i = 1 then (if 2 < pages.length then some "2" else none)
          else none
        status := "OK" }
  | none => Except.error "no such page"

/-- A detail response with all three fields absent (every lookup succeeds). -/
def okDetails : String → PlaceDetailsResponse := fun _ =>
  { result := { website := none, formatted_phone_number := none, formatted_address := none }
    status := "OK" }

/-- A mocked environment: geocoding always succeeds with one candidate, the
nearby search serves `pages` in order via `pageResp`, and every detail
lookup succeeds with `d`. -/
def mkEnv (pages : List (List SearchRecord)) (d : String → PlaceDetailsResponse) : Env :=
  { geocode := fun _ =>
      Except.ok { status := "OK", results := [{ location := { lat := 0, lng := 0 } }] }
    nearbySearch := fun _ _ => pageResp pages 0
    nearbyToken := fun t =>
      if t = "1" then pageResp pages 1
      else if t = "2" then pageResp pages 2
      else Except.error "bad token"
    details := fun pid => Except.ok (d pid) }

/-- An environment where every outbound call throws. -/
def failEnv : Env :=
  { geocode := fun _ => Except.error "net"
    nearbySearch := fun _ _ => Except.error "net"
    nearbyToken := fun _ => Except.error "net"
    details := fun _ => Except.error "net" }

/-- An environment whose single search page is empty (zero results). -/
def emptyPageEnv : Env :=
  { geocode := fun _ =>
      Except.ok { status := "OK", results := [{ location := { lat := 0, lng := 0 } }] }
    nearbySearch := fun _ _ =>
      Except.ok { results := [], next_page_token := none, status := "OK" }
    nearbyToken := fun _ =>
      Except.ok { results := [], next_page_token := none, status := "OK" }
    details := fun _ => Except.error "net" }

/-- A concrete search record with no rating and no rating count. -/
def rec0 : SearchRecord :=
  { place_id := "p0", name := "A", vicinity := "V0", rating := none
    user_ratings_total := none, types := [] }

/-- A second concrete search record. -/
def recB : SearchRecord :=
  { place_id := "pB", name := "B", vicinity := "VB", rating := some (7/2)
    user_ratings_total := some 12, types := ["beauty_salon", "establishment"] }

/-- A concrete enriched place whose category tags are exactly the two
generic tags. -/
def genericOnlyPlace : PlaceSearchResult :=
  { place_id := "p1", name := "X", vicinity := "V", rating := none
    user_ratings_total := none, types := ["point_of_interest", "establishment"]
    website := "", formatted_phone_number := "", formatted_address := "V" }

/-- A concrete enriched place with one non-generic, underscored tag. -/
def salonPlace : PlaceSearchResult :=
  { place_id := "p2", name := "Y", vicinity := "W", rating := some 4
    user_ratings_total := some 3, types := ["beauty_salon", "point_of_interest", "establishment"]
    website := "http://y", formatted_phone_number := "123", formatted_address := "W" }

/-- A concrete enriched place with neither a rating nor a ratings count. -/
def unratedPlace : PlaceSearchResult :=
  { place_id := "p3", name := "Z", vicinity := "U", rating := none
    user_ratings_total := none, types := []
    website := "", formatted_phone_number := "", formatted_address := "U" }

end Buscador

namespace Buscador

/-!  Helper lemmas about the network-call traces and the string rewriting. -/

/-- Every invocation of `searchPlaces` issues exactly one geocoding call. -/
lemma searchPlaces_geocode_count (env : Env) (st loc : String) (tok : Option String) :
    ((searchPlaces env st loc tok).2.countP isGeocode) = 1 := by
  unfold searchPlaces
  cases env.geocode loc with
  | error e => simp [isGeocode]
  | ok g =>
    obtain ⟨gstat, gres⟩ := g
    by_cases hg : gstat = "OK"
    · cases gres with
      | nil => simp [hg, isGeocode]
      | cons c rest =>
        by_cases ht : jsTruthyStr tok = true
        · cases tok with
          | none => simp [jsTruthyStr] at ht
          | some t => simp [hg, ht, isGeocode]
        · simp [hg, ht, isGeocode]
    · simp [hg, isGeocode]

/-- The first outbound call of every `searchPlaces` invocation is the
geocoding call for its location. -/
lemma searchPlaces_head (env : Env) (st loc : String) (tok : Option String) :
    ((searchPlaces env st loc tok).2.head?) = some (NetCall.geocode loc) := by
  unfold searchPlaces
  cases env.geocode loc with
  | error e => simp
  | ok g =>
    obtain ⟨gstat, gres⟩ := g
    by_cases hg : gstat = "OK"
    · cases gres with
      | nil => simp [hg]
      | cons c rest =>
        by_cases ht : jsTruthyStr tok = true
        · cases tok with
          | none => simp [jsTruthyStr] at ht
          | some t => simp [hg, ht]
        · simp [hg, ht]
    · simp [hg]

/-- One `searchPlaces` invocation issues at most one page-search request. -/
lemma searchPlaces_nearby_le_one (env : Env) (st loc : String) (tok : Option String) :
    ((searchPlaces env st loc tok).2.countP isNearby) ≤ 1 := by
  unfold searchPlaces
  cases env.geocode loc with
  | error e => simp [isNearby]
  | ok g =>
    obtain ⟨gstat, gres⟩ := g
    by_cases hg : gstat = "OK"
    · cases gres with
      | nil => simp [hg, isNearby]
      | cons c rest =>
        by_cases ht : jsTruthyStr tok = true
        · cases tok with
          | none => simp [jsTruthyStr] at ht
          | some t => simp [hg, ht, isNearby]
        · simp [hg, ht, isNearby]
    · simp [hg, isNearby]

/-- The detail fan-out issues no page-search request. -/
lemma detailCalls_nearby (records : List SearchRecord) :
    ((detailCalls records).countP isNearby) = 0 := by
  induction records with
  | nil => simp [detailCalls]
  | cons a l ih => simp_all [detailCalls, isNearby]

/-- The aggregation loop with `fuel` remaining iterations issues at most
`fuel` page-search requests. -/
lemma getAllPlacesAux_nearby_le (env : Env) (st loc : String) :
    ∀ (fuel : Nat) (tok : Option String) (acc : List PlaceSearchResult),
      ((getAllPlacesAux env st loc tok fuel acc).2.countP isNearby) ≤ fuel := by
  intro fuel
  induction fuel with
  | zero => intro tok acc; simp [getAllPlacesAux]
  | succ n ih =>
    intro tok acc
    rw [getAllPlacesAux]
    have hs := searchPlaces_nearby_le_one env st loc tok
    split
    · next e calls heq =>
      rw [heq] at hs
      exact le_trans (by simpa using hs) (by omega)
    · next response calls heq =>
      rw [heq] at hs
      have hs2 : List.countP isNearby calls ≤ 1 := by simpa using hs
      split
      · exact le_trans (by simpa using hs2) (by omega)
      · split
        · split
          · next r calls2 heq2 =>
            have h2 := ih response.next_page_token (acc ++ detailedResults env response.results)
            rw [heq2] at h2
            simp only [List.countP_append, detailCalls_nearby] at h2 ⊢
            omega
        · simp only [List.countP_append, detailCalls_nearby]
          omega

/-- When geocoding throws, `searchPlaces` rethrows after its single call,
whatever the page token. -/
lemma searchPlaces_geocode_error (env : Env) (st loc : String) (tok : Option String)
    (e : String) (h : env.geocode loc = Except.error e) :
    searchPlaces env st loc tok = (Except.error e, [NetCall.geocode loc]) := by
  unfold searchPlaces
  rw [h]

/-- A token-mode page fetch does not depend on the keyword. -/
lemma searchPlaces_token_ignores_keyword (env : Env) (st st2 loc t : String)
    (ht : t ≠ "") :
    searchPlaces env st loc (some t) = searchPlaces env st2 loc (some t) := by
  unfold searchPlaces
  cases env.geocode loc with
  | error e => rfl
  | ok g =>
    obtain ⟨gstat, gres⟩ := g
    by_cases hg : gstat = "OK"
    · cases gres with
      | nil => simp [hg]
      | cons c rest => simp [hg, jsTruthyStr, ht]
    · simp [hg]

/-- The page fetch never consults the detail oracle: two environments that
agree on geocoding and both nearby-search modes yield identical
`searchPlaces` outcomes. -/
lemma searchPlaces_no_details (env env2 : Env) (hg : env.geocode = env2.geocode)
    (hn : env.nearbySearch = env2.nearbySearch) (ht : env.nearbyToken = env2.nearbyToken)
    (st loc : String) (tok : Option String) :
    searchPlaces env st loc tok = searchPlaces env2 st loc tok := by
  unfold searchPlaces
  rw [hg, hn, ht]

/-- Whether the aggregation loop completes or throws is independent of the
detail oracle (and of the accumulator): detail failures can never abort the
loop. -/
lemma getAllPlacesAux_isOk_no_details (env env2 : Env) (hg : env.geocode = env2.geocode)
    (hn : env.nearbySearch = env2.nearbySearch) (ht : env.nearbyToken = env2.nearbyToken)
    (st loc : String) :
    ∀ (fuel : Nat) (tok : Option String) (acc acc2 : List PlaceSearchResult),
      ((getAllPlacesAux env st loc tok fuel acc).1).isOk
        = ((getAllPlacesAux env2 st loc tok fuel acc2).1).isOk := by
  intro fuel
  induction fuel with
  | zero => intro tok acc acc2; simp [getAllPlacesAux, Except.isOk, Except.toBool]
  | succ n ih =>
    intro tok acc acc2
    rw [getAllPlacesAux, getAllPlacesAux,
        searchPlaces_no_details env env2 hg hn ht st loc tok]
    cases hs : searchPlaces env2 st loc tok with
    | mk res calls =>
      cases res with
      | error e => simp
      | ok response =>
        by_cases hst : response.status = "OK"
        · simp only [hst, ne_eq, not_true_eq_false, if_false]
          by_cases hcont : jsTruthyStr response.next_page_token = true ∧ 0 < n
          · simp only [hcont, if_true]
            have := ih response.next_page_token
              (acc ++ detailedResults env response.results)
              (acc2 ++ detailedResults env2 response.results)
            cases h1 : getAllPlacesAux env st loc response.next_page_token n
                (acc ++ detailedResults env response.results) with
            | mk r1 c1 =>
              cases h2 : getAllPlacesAux env2 st loc response.next_page_token n
                  (acc2 ++ detailedResults env2 response.results) with
              | mk r2 c2 =>
                rw [h1, h2] at this
                simpa using this
          · simp [hcont, Except.isOk, Except.toBool]
        · simp [hst]

/-- Underscore rewriting never produces an underscore. -/
lemma underscore_not_mem (s : String) : '_' ∉ (underscoreToSpace s).data := by
  show '_' ∉ s.data.map (fun c => if c = '_' then ' ' else c)
  intro hmem
  rw [List.mem_map] at hmem
  obtain ⟨c, hc, hfc⟩ := hmem
  by_cases h : c = '_'
  · rw [h] at hfc
    exact absurd hfc (by decide)
  · rw [if_neg h] at hfc
    exact h hfc

/-- A character list without underscores or spaces is only reached by the
underscore rewriting from itself. -/
lemma map_underscore_fixed (m : List Char) (hm : ∀ d ∈ m, d ≠ '_' ∧ d ≠ ' ') :
    ∀ l : List Char, l.map (fun c => if c = '_' then ' ' else c) = m → l = m := by
  induction m with
  | nil => intro l h; simpa using h
  | cons b m ih =>
    intro l h
    cases l with
    | nil => simp at h
    | cons a l =>
      simp only [List.map_cons, List.cons.injEq] at h
      obtain ⟨h1, h2⟩ := h
      have hb := hm b (by simp)
      have hab : a = b := by
        by_cases ha : a = '_'
        · rw [ha] at h1; simp at h1; exact absurd h1.symm hb.2
        · rw [if_neg ha] at h1; exact h1
      have := ih (fun d hd => hm d (by simp [hd])) l h2
      rw [hab, this]

/-- No entry of the filtered, underscore-rewritten tag list is one of the two
generic tags, and no entry retains an underscore. -/
lemma businessParts_sound (types : List String) :
    ∀ s ∈ businessParts types,
      s ≠ "point_of_interest" ∧ s ≠ "establishment" ∧ '_' ∉ s.data := by
  intro s hs
  simp only [businessParts, List.mem_map, List.mem_filter] at hs
  obtain ⟨t, ⟨ht, hnt⟩, rfl⟩ := hs
  refine ⟨?_, ?_, underscore_not_mem t⟩
  · intro he
    have hmem : '_' ∈ (underscoreToSpace t).data := by rw [he]; decide
    exact underscore_not_mem t hmem
  · intro he
    have hd : t.data.map (fun c => if c = '_' then ' ' else c) = "establishment".data := by
      have := congrArg String.data he
      simpa [underscoreToSpace] using this
    have hdata : t.data = "establishment".data :=
      map_underscore_fixed "establishment".data (by decide) t.data hd
    have hts : t = "establishment" := String.ext hdata
    rw [hts] at hnt
    simp [genericTags] at hnt

/-- The sum of a list of naturals all equal to `K` is its length times `K`. -/
lemma sum_eq_card_mul (K : Nat) :
    ∀ l : List Nat, (∀ x ∈ l, x = K) → l.sum = l.length * K := by
  intro l
  induction l with
  | nil => simp
  | cons a l ih =>
    intro h
    have ha := h a (by simp)
    have hl := ih (fun x hx => h x (by simp [hx]))
    simp [ha, hl, Nat.succ_mul, Nat.add_comm]

/-!  The claims. -/

/-- C1: for every valid request against a mocked upstream serving N pages
(N ≤ 3) of K records each, all with success status and all detail lookups
succeeding, `getAllPlaces` returns exactly N×K enriched records, ordered page
by page and record by record within each page, and the exported spreadsheet
has the same N×K data rows. -/
theorem C1_aggregation_n_by_k (pages : List (List SearchRecord))
    (d : String → PlaceDetailsResponse) (serviceType location : String) (K : Nat)
    (hpos : 0 < pages.length) (hle : pages.length ≤ 3)
    (hK : ∀ p ∈ pages, p.length = K) :
    ((getAllPlaces (mkEnv pages d) serviceType location).1 =
      Except.ok ((pages.map (fun p => p.map (enrichPlace (mkEnv pages d)))).flatten)) ∧
    (((pages.map (fun p => p.map (enrichPlace (mkEnv pages d)))).flatten).length
      = pages.length * K) ∧
    ((generateExcel
        ((pages.map (fun p => p.map (enrichPlace (mkEnv pages d)))).flatten)).length
      = pages.length * K) := by
  have hlen : ((pages.map (fun p => p.map (enrichPlace (mkEnv pages d)))).flatten).length
      = pages.length * K := by
    rw [List.length_flatten]
    have harg : (pages.map (fun p => p.map (enrichPlace (mkEnv pages d)))).map List.length
        = pages.map List.length := by
      rw [List.map_map]
      exact List.map_congr_left (fun p _ => by simp)
    rw [harg]
    have := sum_eq_card_mul K (pages.map List.length)
      (fun x hx => by
        rw [List.mem_map] at hx
        obtain ⟨p, hp, rfl⟩ := hx
        exact hK p hp)
    simpa using this
  have hgen : (generateExcel
        ((pages.map (fun p => p.map (enrichPlace (mkEnv pages d)))).flatten)).length
      = ((pages.map (fun p => p.map (enrichPlace (mkEnv pages d)))).flatten).length := by
    simp only [generateExcel, List.length_map]
  refine ⟨?_, hlen, hgen.trans hlen⟩
  rcases pages with _ | ⟨p0, rest⟩
  · simp at hpos
  rcases rest with _ | ⟨p1, rest⟩
  · simp [getAllPlaces, getAllPlacesAux, searchPlaces, mkEnv, pageResp, maxPages,
      jsTruthyStr, detailedResults]
  rcases rest with _ | ⟨p2, rest⟩
  · simp [getAllPlaces, getAllPlacesAux, searchPlaces, mkEnv, pageResp, maxPages,
      jsTruthyStr, detailedResults]
  rcases rest with _ | ⟨p3, rest⟩
  · simp [getAllPlaces, getAllPlacesAux, searchPlaces, mkEnv, pageResp, maxPages,
      jsTruthyStr, detailedResults]
  · exfalso
    simp at hle

/-- Witness for C1: a concrete two-page upstream with one record per page
yields exactly 2 × 1 rows in page order. -/
theorem C1_aggregation_n_by_k_witness :
    ((getAllPlaces (mkEnv [[rec0], [recB]] okDetails) "clinica" "Recife").1 =
      Except.ok (([[rec0], [recB]].map
        (fun p => p.map (enrichPlace (mkEnv [[rec0], [recB]] okDetails)))).flatten)) ∧
    ((([[rec0], [recB]].map
        (fun p => p.map (enrichPlace (mkEnv [[rec0], [recB]] okDetails)))).flatten).length
      = 2 * 1) ∧
    ((generateExcel (([[rec0], [recB]].map
        (fun p => p.map (enrichPlace (mkEnv [[rec0], [recB]] okDetails)))).flatten)).length
      = 2 * 1) := by
  have h := C1_aggregation_n_by_k [[rec0], [recB]] okDetails "clinica" "Recife" 1
    (by decide) (by decide) (by decide)
  simpa using h

/-- C2 counterexample: the claim says the geocoding endpoint is called
exactly once per request, but on a concrete three-page request the
aggregation issues three geocoding calls (one per page fetch, because
`searchPlaces` geocodes on every invocation, token mode included). -/
theorem C2_geocode_once_counterexample :
    ((getAllPlaces (mkEnv [[rec0], [rec0], [rec0]] okDetails) "clinica" "Recife").2.countP
        isGeocode) = 3 ∧ (3 : Nat) ≠ 1 :=
  ⟨by decide, by decide⟩

/-- C2 (amended): the geocoding endpoint is called exactly once per page
fetch — every `searchPlaces` invocation, successful or not and whatever the
token, issues exactly one geocoding call and issues it first (it heads the
trace); a token-mode page fetch still fails when geocoding of the location
fails; and a token-mode fetch ignores the keyword (though not the location). -/
theorem C2_geocode_per_page :
    (∀ (env : Env) (st loc : String) (tok : Option String),
       (((searchPlaces env st loc tok).2.countP isGeocode) = 1) ∧
       (((searchPlaces env st loc tok).2.head?) = some (NetCall.geocode loc))) ∧
    (∀ (env : Env) (st loc t e : String), env.geocode loc = Except.error e →
       (searchPlaces env st loc (some t)).1 = Except.error e) ∧
    (∀ (env : Env) (st st2 loc t : String), t ≠ "" →
       searchPlaces env st loc (some t) = searchPlaces env st2 loc (some t)) := by
  refine ⟨fun env st loc tok => ⟨searchPlaces_geocode_count env st loc tok,
    searchPlaces_head env st loc tok⟩, fun env st loc t e hgeo => ?_,
    fun env st st2 loc t ht => searchPlaces_token_ignores_keyword env st st2 loc t ht⟩
  rw [searchPlaces_geocode_error env st loc (some t) e hgeo]

/-- Witness for the amended C2: one geocode call heads the trace of a
successful token-mode fetch, and with a concrete failing geocoder a
token-mode fetch fails with the geocoder's error, independently of the
keyword. -/
theorem C2_geocode_per_page_witness :
    ((((searchPlaces emptyPageEnv "a" "Recife" (some "t")).2.countP isGeocode) = 1) ∧
     (((searchPlaces emptyPageEnv "a" "Recife" (some "t")).2.head?)
       = some (NetCall.geocode "Recife"))) ∧
    ((searchPlaces failEnv "a" "Recife" (some "t")).1 = Except.error "net") ∧
    (searchPlaces failEnv "a" "Recife" (some "t")
      = searchPlaces failEnv "x" "Recife" (some "t")) :=
  ⟨C2_geocode_per_page.1 emptyPageEnv "a" "Recife" (some "t"),
   C2_geocode_per_page.2.1 failEnv "a" "Recife" "t" "net" rfl,
   C2_geocode_per_page.2.2 failEnv "a" "x" "Recife" "t" (by decide)⟩

/-- C3: for every environment and request, the aggregation loop issues at
most three page-search requests — never a fourth, whatever tokens the
upstream returns. -/
theorem C3_never_fourth_page (env : Env) (serviceType location : String) :
    ((getAllPlaces env serviceType location).2.countP isNearby) ≤ 3 := by
  have := getAllPlacesAux_nearby_le env serviceType location maxPages none []
  simpa [getAllPlaces, maxPages] using this

/-- C4: a record whose detail lookup throws is still enriched, with empty
website and phone and the address falling back to `vicinity`; the fan-out
preserves every record's original position; and whether the whole aggregation
succeeds never depends on the detail oracle, so one detail failure cannot
abort the page or the search. -/
theorem C4_detail_failure_defaults :
    (∀ (env : Env) (place : SearchRecord) (e : String),
       (getPlaceDetails env place.place_id).1 = Except.error e →
       enrichPlace env place =
         { place_id := place.place_id, name := place.name, vicinity := place.vicinity
           rating := place.rating, user_ratings_total := place.user_ratings_total
           types := place.types, website := "", formatted_phone_number := ""
           formatted_address := place.vicinity }) ∧
    (∀ (env : Env) (records : List SearchRecord) (i : Nat),
       (detailedResults env records)[i]? = (records[i]?).map (enrichPlace env)) ∧
    (∀ (env env2 : Env), env.geocode = env2.geocode →
       env.nearbySearch = env2.nearbySearch → env.nearbyToken = env2.nearbyToken →
       ∀ (st loc : String),
         ((getAllPlaces env st loc).1).isOk = ((getAllPlaces env2 st loc).1).isOk) := by
  refine ⟨fun env place e h => ?_, fun env records i => ?_,
    fun env env2 hg hn ht st loc => ?_⟩
  · unfold enrichPlace
    rw [h]
  · simp [detailedResults, List.getElem?_map]
  · exact getAllPlacesAux_isOk_no_details env env2 hg hn ht st loc maxPages none [] []

/-- Witness for C4: a concrete record whose detail lookup throws keeps its
position data with empty website/phone and the short address. -/
theorem C4_detail_failure_defaults_witness :
    enrichPlace failEnv rec0 =
      { place_id := rec0.place_id, name := rec0.name, vicinity := rec0.vicinity
        rating := rec0.rating, user_ratings_total := rec0.user_ratings_total
        types := rec0.types, website := "", formatted_phone_number := ""
        formatted_address := rec0.vicinity } :=
  C4_detail_failure_defaults.1 failEnv rec0 "net" rfl

/-- C5 counterexample: the claim promises a 400 for every request with an
empty input field, but when the API credential is absent the handler answers
500 (the credential check precedes validation), even though the body's
service type is empty. -/
theorem C5_invalid_input_counterexample :
    ((POST failEnv none (Except.ok { serviceType := some "", location := some "Recife" })).1
        = Response.json misconfiguredMsg 500) ∧
    (((POST failEnv none
        (Except.ok { serviceType := some "", location := some "Recife" })).1).statusCode ≠ 400) :=
  ⟨rfl, by decide⟩

/-- C5 (amended): provided the API credential is configured (truthy), a
request whose body has a missing or empty service type or location is
answered with the InvalidInput 400 response and no outbound network call. -/
theorem C5_invalid_input_400 (env : Env) (key : Option String) (b : ReqBody)
    (hk : jsTruthyStr key = true)
    (hb : jsTruthyStr b.serviceType = false ∨ jsTruthyStr b.location = false) :
    POST env key (Except.ok b) = (Response.json invalidInputMsg 400, []) := by
  unfold POST
  rw [hk]
  simp only [if_true]
  obtain ⟨bs, bl⟩ := b
  cases bs with
  | none => rfl
  | some s =>
    cases bl with
    | none => rfl
    | some l =>
      simp only [jsTruthyStr] at hb
      have : s = "" ∨ l = "" := by
        rcases hb with h | h
        · left; by_contra hne; simp [hne] at h
        · right; by_contra hne; simp [hne] at h
      simp only []
      rw [if_pos this]

/-- Witness for the amended C5, at a concrete empty service type. -/
theorem C5_invalid_input_400_witness :
    POST failEnv (some "key") (Except.ok { serviceType := some "", location := some "Recife" })
      = (Response.json invalidInputMsg 400, []) :=
  C5_invalid_input_400 failEnv (some "key")
    { serviceType := some "", location := some "Recife" } (by decide) (by left; decide)

/-- C6: for every environment and body, a request served without the API
credential is answered with the Misconfigured 500 response and no outbound
network call is made. -/
theorem C6_misconfigured_500 (env : Env) (body : Except String ReqBody) :
    POST env none body = (Response.json misconfiguredMsg 500, []) := rfl

/-- C7: when aggregation completes with zero records (credential and inputs
present), the handler answers the NoResults 404 JSON response, whose status
is distinct from the 200 spreadsheet success and the 500 hard failures. -/
theorem C7_no_results_404 (env : Env) (key serviceType location : String)
    (hk : key ≠ "") (hs : serviceType ≠ "") (hl : location ≠ "")
    (hagg : (getAllPlaces env serviceType location).1 = Except.ok []) :
    ((POST env (some key)
        (Except.ok { serviceType := some serviceType, location := some location })).1
      = Response.json noResultsMsg 404) ∧
    (((POST env (some key)
        (Except.ok { serviceType := some serviceType, location := some location })).1).statusCode
      = 404) ∧
    ((404 : Nat) ≠ 200) ∧ ((404 : Nat) ≠ 500) := by
  unfold POST
  simp only [jsTruthyStr, hk]
  have hcond : ¬(serviceType = "" ∨ location = "") := by
    rintro (h | h)
    · exact hs h
    · exact hl h
  cases hg : getAllPlaces env serviceType location with
  | mk res calls =>
    rw [hg] at hagg
    simp only at hagg
    subst hagg
    simp [hcond, hk, Response.statusCode]

/-- Witness for C7: a concrete upstream with one empty page produces the 404. -/
theorem C7_no_results_404_witness :
    ((POST emptyPageEnv (some "key")
        (Except.ok { serviceType := some "clinica", location := some "Recife" })).1
      = Response.json noResultsMsg 404) ∧
    (((POST emptyPageEnv (some "key")
        (Except.ok { serviceType := some "clinica", location := some "Recife" })).1).statusCode
      = 404) ∧
    ((404 : Nat) ≠ 200) ∧ ((404 : Nat) ≠ 500) :=
  C7_no_results_404 emptyPageEnv "key" "clinica" "Recife"
    (by decide) (by decide) (by decide) rfl

/-- C8 counterexample: a place whose tags are exactly the two generic tags is
rendered as the literal "N/A", not as the (empty) comma-joined filtered list
the claim describes. -/
theorem C8_business_type_counterexample :
    ((toRow genericOnlyPlace).business_type = "N/A") ∧
    (businessTypeOf genericOnlyPlace.types = "") ∧
    ((toRow genericOnlyPlace).business_type ≠ businessTypeOf genericOnlyPlace.types) :=
  ⟨by decide, by decide, by decide⟩

/-- C8 (amended): the business-type cell is the comma-joined filtered and
underscore-rewritten tag list when that list is nonempty and the literal
"N/A" otherwise; no entry of the list is `point_of_interest` or
`establishment`, and no entry retains an underscore. -/
theorem C8_business_type_filtered (place : PlaceSearchResult) :
    ((toRow place).business_type =
      (if businessTypeOf place.types = "" then "N/A" else businessTypeOf place.types)) ∧
    (∀ s ∈ businessParts place.types,
      s ≠ "point_of_interest" ∧ s ≠ "establishment" ∧ '_' ∉ s.data) :=
  ⟨rfl, businessParts_sound place.types⟩

/-- Witness for the amended C8: a concrete underscored tag is rendered with a
space and is not one of the generic tags. -/
theorem C8_business_type_filtered_witness :
    ("beauty salon" ∈ businessParts salonPlace.types) ∧
    ("beauty salon" ≠ "point_of_interest" ∧ "beauty salon" ≠ "establishment" ∧
      '_' ∉ ("beauty salon" : String).data) :=
  ⟨by decide, (C8_business_type_filtered salonPlace).2 "beauty salon" (by decide)⟩

/-- C9: independently per column, a place with no rating is rendered in the
rating column as the literal string "N/A" — neither a number nor the blank
string — and a place with no rating count is rendered as zero in the
rating-count column (neither conclusion needs the other field to be absent). -/
theorem C9_absent_rating_na (place : PlaceSearchResult) :
    (place.rating = none →
      ((toRow place).rating = CellVal.str "N/A") ∧
      (∀ q : Rat, (toRow place).rating ≠ CellVal.num q) ∧
      ((toRow place).rating ≠ CellVal.str "")) ∧
    (place.user_ratings_total = none → (toRow place).ratings_count = 0) := by
  constructor
  · intro h1
    unfold toRow
    rw [h1]
    refine ⟨rfl, fun q h => by simp at h, fun h => ?_⟩
    have := congrArg (fun c => match c with | CellVal.str s => s | CellVal.num _ => "") h
    simp at this
  · intro h2
    unfold toRow
    rw [h2]

/-- Witness for C9: a concrete place with no rating but a present count gets
the "N/A" rating cell, and a concrete place with no count gets zero. -/
theorem C9_absent_rating_na_witness :
    (((toRow genericOnlyPlace).rating = CellVal.str "N/A") ∧
     (∀ q : Rat, (toRow genericOnlyPlace).rating ≠ CellVal.num q) ∧
     ((toRow genericOnlyPlace).rating ≠ CellVal.str "")) ∧
    ((toRow unratedPlace).ratings_count = 0) :=
  ⟨(C9_absent_rating_na genericOnlyPlace).1 rfl,
   (C9_absent_rating_na unratedPlace).2 rfl⟩

/-- C10: when the body fails to parse (the parse throws with some message),
the handler answers 500 with that error message — never the 400 InvalidInput
response — and makes no outbound call: validation only runs after a
successful parse. -/
theorem C10_parse_failure_500 (env : Env) (key : Option String) (m : String)
    (hk : jsTruthyStr key = true) :
    ((POST env key (Except.error m)).1 = Response.json m 500) ∧
    (((POST env key (Except.error m)).1).statusCode = 500) ∧
    ((POST env key (Except.error m)).1 ≠ Response.json invalidInputMsg 400) ∧
    ((POST env key (Except.error m)).2 = []) := by
  unfold POST
  rw [hk]
  refine ⟨rfl, rfl, ?_, rfl⟩
  intro h
  simp only [if_true] at h
  injection h with h1 h2
  exact absurd h2 (by decide)

/-- Witness for C10, at a concrete malformed-body message. -/
theorem C10_parse_failure_500_witness :
    ((POST failEnv (some "key") (Except.error "Unexpected token")).1
        = Response.json "Unexpected token" 500) ∧
    (((POST failEnv (some "key") (Except.error "Unexpected token")).1).statusCode = 500) ∧
    ((POST failEnv (some "key") (Except.error "Unexpected token")).1
        ≠ Response.json invalidInputMsg 400) ∧
    ((POST failEnv (some "key") (Except.error "Unexpected token")).2 = []) :=
  C10_parse_failure_500 failEnv (some "key") "Unexpected token" (by decide)

end Buscador
